import Mathlib

/-!
Verification of the appointment availability-window resolver of
`appointments/services.py` (django-hospital).

The embedding below translates the resolver and its thin orchestration into
Lean.  Wall-clock times (`datetime.time`) become minutes after midnight;
datetimes (`datetime.datetime`) become a calendar day index, a wall-clock
time and an optional fixed UTC offset standing for `tzinfo` (`none` models a
naive datetime).  The working-hour store (`WorkingHour.objects.filter(...)`)
becomes a list of records, with `.filter(day_of_week=...).first()` modelled
as filtering the list and taking its head.
-/

/-- The seven weekday identifiers used to index availability records
(the `day_of_week` values stored on `WorkingHour` rows). -/
inductive Weekday where
  | monday | tuesday | wednesday | thursday | friday | saturday | sunday
deriving DecidableEq

/-- Modelled from the spec: the WeekdayCalendar component (`weekday_mapping`
in `django_hospital/utils.py`, outside the resolver sources) is a total
injective mapping from the integer day-of-week (Monday = 0 … Sunday = 6) to
a stable weekday identifier. -/
def weekday_mapping (n : Nat) : Weekday :=
  match n % 7 with
  | 0 => .monday
  | 1 => .tuesday
  | 2 => .wednesday
  | 3 => .thursday
  | 4 => .friday
  | 5 => .saturday
  | _ => .sunday

/-- Models `datetime.datetime`: a calendar date (day index; day 0 is chosen
to be a Monday), a wall-clock time in minutes after midnight, and `tzinfo`
as an optional fixed UTC offset in minutes (`none` models a naive value). -/
structure Datetime where
  date : Int
  time : Nat
  tzinfo : Option Int
deriving DecidableEq

/-- `datetime.weekday()`: Monday is 0, Sunday is 6. -/
def Datetime.weekday (d : Datetime) : Nat := (Int.emod d.date 7).toNat

/-- `datetime.datetime.combine(date, time)`: the composed value is naive
(`tzinfo = none`), exactly as in Python when the time carries no zone. -/
def Datetime.combine (date : Int) (time : Nat) : Datetime := ⟨date, time, none⟩

/-- `django.utils.timezone.make_aware(value, tz)`: attaches the zone to the
wall-clock value without shifting it. -/
def make_aware (d : Datetime) (tz : Option Int) : Datetime := { d with tzinfo := tz }

/-- The absolute instant (in minutes) a `Datetime` denotes; Python's
comparison of two timezone-aware datetimes compares these.  A naive value is
read at offset 0 (the source only ever compares values carrying the same
`tzinfo`, for which this coincides with Python's ordering). -/
def Datetime.instant (d : Datetime) : Int :=
  d.date * 1440 + d.time - d.tzinfo.getD 0

/-- `d + datetime.timedelta(minutes = m)`, with rollover across midnight. -/
def Datetime.add_minutes (d : Datetime) (m : Int) : Datetime :=
  ⟨(d.date * 1440 + d.time + m) / 1440,
   ((d.date * 1440 + d.time + m) % 1440).toNat,
   d.tzinfo⟩

/-- Models `doctors.models.WorkingHour` as the resolver reads it: one
provider's availability for one weekday, with an optional single break. -/
structure WorkingHour where
  day_of_week : Weekday
  start_time : Nat
  end_time : Nat
  break_start_time : Option Nat
  break_end_time : Option Nat
deriving DecidableEq

/-- Models `doctor_schedule.filter(day_of_week=name).first()`: the first
record of the schedule stored for the given weekday, if any. -/
def working_hour_for_day (doctor_schedule : List WorkingHour) (name : Weekday) :
    Option WorkingHour :=
  (doctor_schedule.filter (fun w => w.day_of_week == name)).head?

/-- `is_within_working_hours` from `services.py`. -/
def is_within_working_hours (current_time : Nat) (working_hour : WorkingHour) : Bool :=
  working_hour.start_time ≤ current_time && current_time ≤ working_hour.end_time

/-- `is_during_break` from `services.py`.  The source guards with Python
truthiness (`if break_start_time and break_end_time`), which for
`datetime.time` values is a not-`None` test. -/
def is_during_break (current_time : Nat) (working_hour : WorkingHour) : Bool :=
  match working_hour.break_start_time, working_hour.break_end_time with
  | some break_start, some break_end =>
      break_start ≤ current_time && current_time ≤ break_end
  | _, _ => false

/-- The body of the `for days_ahead in range(7)` loop of
`find_next_working_period_start`: `some` is the loop's early return and
`none` means the loop moves on to the next offset (no record stored for that
weekday, or the candidate start is not strictly later than the reference). -/
def find_next_candidate (request_datetime : Datetime)
    (doctor_schedule : List WorkingHour) (days_ahead : Nat) : Option Datetime :=
  let next_day_name := weekday_mapping ((request_datetime.weekday + days_ahead) % 7)
  match working_hour_for_day doctor_schedule next_day_name with
  | none => none
  | some next_working_hour =>
    let next_working_day : Int := request_datetime.date + days_ahead
    let naive_next_start_time :=
      Datetime.combine next_working_day next_working_hour.start_time
    let next_start_time := make_aware naive_next_start_time request_datetime.tzinfo
    if request_datetime.instant < next_start_time.instant then
      some (next_start_time.add_minutes 15)
    else
      none

/-- `find_next_working_period_start` from `services.py`: scan the offsets
`0, 1, …, 6` and return the first candidate the loop body accepts. -/
def find_next_working_period_start (request_datetime : Datetime)
    (doctor_schedule : List WorkingHour) : Option Datetime :=
  (List.range 7).findSome? (find_next_candidate request_datetime doctor_schedule)

/-- `set_request_expiration_datetime` from `services.py`.  The stored
schedule query `WorkingHour.objects.filter(doctor_id=...)` is passed in as
`doctor_schedule`.  `none` models Python's `None` result. -/
def set_request_expiration_datetime (request_datetime : Datetime)
    (doctor_schedule : List WorkingHour) : Option Datetime :=
  let current_time := request_datetime.time
  match working_hour_for_day doctor_schedule (weekday_mapping request_datetime.weekday) with
  | some working_hour_today =>
    if is_within_working_hours current_time working_hour_today then
      if is_during_break current_time working_hour_today then
        match working_hour_today.break_end_time with
        | some break_end =>
          some ((Datetime.combine request_datetime.date break_end).add_minutes 15)
        | none => none
      else
        some (request_datetime.add_minutes 20)
    else
      find_next_working_period_start request_datetime doctor_schedule
  | none => find_next_working_period_start request_datetime doctor_schedule

/-- Models `appointments.models.AppointmentRequest` as the creation service
constructs it.  The `status` default is modelled from the spec: the model
class is outside the resolver sources and the spec gives the tri-state
machine a `pending` initial state. -/
structure AppointmentRequest where
  patient_id : Nat
  doctor_id : Nat
  preferred_datetime : Datetime
  request_expiration_datetime : Option Datetime
  status : String
deriving DecidableEq

/-- Outcome of `create_appointment_request_service`: either one of the
structured `{"error": ...}` returns, or the persisted (and serialized)
request. -/
inductive CreateResult where
  | error (msg : String)
  | created (req : AppointmentRequest)
deriving DecidableEq

/-- `create_appointment_request_service` from `services.py`.  Persistence is
an external collaborator, so the `created` outcome carries the record the
service saves; the database lookups by `doctor_id` become the
`doctor_schedule` parameter. -/
def create_appointment_request_service (patient_id doctor_id : Nat)
    (preferred_datetime : Datetime) (request_datetime : Datetime)
    (doctor_schedule : List WorkingHour) : CreateResult :=
  let preferred_time_for_day := preferred_datetime.time
  match working_hour_for_day doctor_schedule
      (weekday_mapping preferred_datetime.weekday) with
  | none => .error "Doctor is not available at that day"
  | some doctor_working_hour =>
    if preferred_time_for_day < doctor_working_hour.start_time
        || doctor_working_hour.end_time < preferred_time_for_day then
      .error "It's not operation hours. Can't make appointment for this time"
    else
      let persisted := CreateResult.created
        { patient_id := patient_id
          doctor_id := doctor_id
          preferred_datetime := preferred_datetime
          request_expiration_datetime :=
            set_request_expiration_datetime request_datetime doctor_schedule
          status := "pending" }
      match doctor_working_hour.break_start_time,
            doctor_working_hour.break_end_time with
      | some break_start, some break_end =>
        if break_start ≤ preferred_time_for_day
            && preferred_time_for_day ≤ break_end then
          .error "Doctor is having lunch break, can't make appointment for this time"
        else
          persisted
      | _, _ => persisted

/-- Outcome of `update_appointment_request_status`: the serialized accepted
request, one of the structured `{"error": ...}` returns, or `raised` for an
uncaught Python `TypeError` (comparing the current datetime with a `None`
expiration, or a naive with an aware value). -/
inductive UpdateResult where
  | ok (req : AppointmentRequest)
  | error (msg : String)
  | raised
deriving DecidableEq

/-- `update_appointment_request_status` from `services.py`.  The request
table becomes a list of (primary key, record) pairs; the function returns
the call's outcome together with the table after the call. -/
def update_appointment_request_status (requests : List (Nat × AppointmentRequest))
    (appointment_request_id : Nat) (new_status : String)
    (request_datetime : Datetime) :
    UpdateResult × List (Nat × AppointmentRequest) :=
  match requests.find? (fun p => p.1 == appointment_request_id) with
  | none => (.error "Appointment request not found", requests)
  | some (_, appointment_request) =>
    match appointment_request.request_expiration_datetime with
    | none => (.raised, requests)
    | some expiration =>
      if expiration.tzinfo.isSome != request_datetime.tzinfo.isSome then
        (.raised, requests)
      else if expiration.instant < request_datetime.instant then
        (.error "Appointment request expired", requests)
      else if appointment_request.status ≠ "accepted" then
        let updated := { appointment_request with status := new_status }
        (.ok updated,
          requests.map (fun p =>
            if p.1 == appointment_request_id then (p.1, updated) else p))
      else
        (.error "Appointment request already accepted", requests)

/-! ## Helper lemmas -/

theorem Datetime.instant_add_minutes (d : Datetime) (m : Int) :
    (d.add_minutes m).instant = d.instant + m := by
  unfold Datetime.add_minutes Datetime.instant
  have hmod : 0 ≤ (d.date * 1440 + d.time + m) % 1440 :=
    Int.emod_nonneg _ (by norm_num)
  simp only [Int.toNat_of_nonneg hmod]
  omega

theorem Datetime.tzinfo_add_minutes (d : Datetime) (m : Int) :
    (d.add_minutes m).tzinfo = d.tzinfo := rfl

theorem is_within_working_hours_iff (t : Nat) (w : WorkingHour) :
    is_within_working_hours t w = true ↔ w.start_time ≤ t ∧ t ≤ w.end_time := by
  unfold is_within_working_hours
  simp

theorem is_during_break_iff (t : Nat) (w : WorkingHour) :
    is_during_break t w = true ↔
      ∃ bs be, w.break_start_time = some bs ∧ w.break_end_time = some be ∧
        bs ≤ t ∧ t ≤ be := by
  unfold is_during_break
  cases hbs : w.break_start_time <;> cases hbe : w.break_end_time <;> simp

/-- The first accepted offset determines the result of a `findSome?` scan
over `List.range n`. -/
theorem findSome?_range_first {α : Type} (f : Nat → Option α) (n k : Nat) (v : α)
    (h1 : ∀ j, j < k → f j = none) (h2 : f k = some v) (hk : k < n) :
    (List.range n).findSome? f = some v := by
  induction n with
  | zero => omega
  | succ n ih =>
    rw [List.range_succ, List.findSome?_append]
    rcases Nat.lt_or_ge k n with h | h
    · rw [ih h]
      rfl
    · have hkn : k = n := by omega
      have hnone : (List.range n).findSome? f = none := by
        rw [List.findSome?_eq_none_iff]
        intro x hx
        have hxn := List.mem_range.mp hx
        exact h1 x (by omega)
      have hfn : f n = some v := by rw [← hkn]; exact h2
      rw [hnone]
      simp [List.findSome?_cons, hfn]

/-! ## Claim C1: timezone preservation -/

/-- Schedule for the break-branch timezone check: Monday 09:00–17:00 with a
12:00–13:00 break. -/
def schedTZ : List WorkingHour := [⟨Weekday.monday, 540, 1020, some 720, some 780⟩]

/-- Reference instant for the break-branch timezone check: a Monday, 12:30,
at UTC+09:00. -/
def refTZ : Datetime := ⟨0, 750, some 540⟩

/-- Claim C1 (refuted by the code): the reference instant carries zone
UTC+9, yet the expiration returned by the IN_BREAK branch of
`set_request_expiration_datetime` is a naive datetime — the branch combines
the reference date with `break_end_time` via `datetime.combine` and never
re-attaches the reference timezone. -/
theorem in_break_branch_returns_naive_datetime :
    refTZ.tzinfo = some 540 ∧
    set_request_expiration_datetime refTZ schedTZ = some ⟨0, 795, none⟩ := by
  exact ⟨rfl, by decide⟩

/-! ## Claim C2: IN_BREAK expiration rule -/

/-- Claim C2 (confirmed): when the reference wall-clock time lies within the
day's working hours and inside the break interval (both endpoints
inclusive), the computed expiration is the reference instant's calendar date
combined with the record's `break_end_time`, plus 15 minutes. -/
theorem in_break_expiration (rd : Datetime) (s : List WorkingHour)
    (w : WorkingHour) (bs be : Nat)
    (hw : working_hour_for_day s (weekday_mapping rd.weekday) = some w)
    (hin : w.start_time ≤ rd.time ∧ rd.time ≤ w.end_time)
    (hbs : w.break_start_time = some bs) (hbe : w.break_end_time = some be)
    (hbr : bs ≤ rd.time ∧ rd.time ≤ be) :
    set_request_expiration_datetime rd s =
      some ((Datetime.combine rd.date be).add_minutes 15) := by
  have h1 : is_within_working_hours rd.time w = true :=
    (is_within_working_hours_iff rd.time w).mpr hin
  have h2 : is_during_break rd.time w = true :=
    (is_during_break_iff rd.time w).mpr ⟨bs, be, hbs, hbe, hbr.1, hbr.2⟩
  unfold set_request_expiration_datetime
  rw [hw]
  simp [h1, h2, hbe]

/-- Scenario B schedule: Monday 09:00–17:00 with a 12:00–13:00 break. -/
def schedB : List WorkingHour := [⟨Weekday.monday, 540, 1020, some 720, some 780⟩]

/-- Scenario B reference: a Monday, 12:30, at UTC+09:00. -/
def refB : Datetime := ⟨0, 750, some 540⟩

/-- Scenario B instantiation of the break rule: reference Monday 12:30 with
break 12:00–13:00 expires at Monday 13:15. -/
theorem in_break_expiration_witness :
    set_request_expiration_datetime refB schedB =
      some ((Datetime.combine refB.date 780).add_minutes 15) ∧
    (Datetime.combine refB.date 780).add_minutes 15 = ⟨0, 795, none⟩ :=
  ⟨in_break_expiration refB schedB ⟨Weekday.monday, 540, 1020, some 720, some 780⟩
      720 780 (by decide) (by decide) rfl rfl (by decide),
   by decide⟩

/-! ## Claim C3: IN_HOURS expiration rule -/

/-- Claim C3 (confirmed): when the reference wall-clock time is within the
day's working hours and does not fall inside the break interval (or the
record has no break pair), the computed expiration is exactly the reference
instant plus 20 minutes. -/
theorem in_hours_expiration (rd : Datetime) (s : List WorkingHour)
    (w : WorkingHour)
    (hw : working_hour_for_day s (weekday_mapping rd.weekday) = some w)
    (hin : w.start_time ≤ rd.time ∧ rd.time ≤ w.end_time)
    (hbr : ∀ bs be, w.break_start_time = some bs → w.break_end_time = some be →
      ¬(bs ≤ rd.time ∧ rd.time ≤ be)) :
    set_request_expiration_datetime rd s = some (rd.add_minutes 20) := by
  have h1 : is_within_working_hours rd.time w = true :=
    (is_within_working_hours_iff rd.time w).mpr hin
  have h2 : is_during_break rd.time w = false := by
    cases hdb : is_during_break rd.time w with
    | false => rfl
    | true =>
      exfalso
      rcases (is_during_break_iff rd.time w).mp hdb with ⟨bs, be, hbs, hbe, hb1, hb2⟩
      exact hbr bs be hbs hbe ⟨hb1, hb2⟩
  unfold set_request_expiration_datetime
  rw [hw]
  simp [h1, h2]

/-- Scenario A schedule: Monday 09:00–17:00, no break. -/
def schedA : List WorkingHour := [⟨Weekday.monday, 540, 1020, none, none⟩]

/-- Scenario A reference: a Monday, 10:00, at UTC+09:00. -/
def refA : Datetime := ⟨0, 600, some 540⟩

/-- Scenario A instantiation of the in-hours rule: reference Monday 10:00
with hours 09:00–17:00 expires at Monday 10:20 in the same zone. -/
theorem in_hours_expiration_witness :
    set_request_expiration_datetime refA schedA = some (refA.add_minutes 20) ∧
    refA.add_minutes 20 = ⟨0, 620, some 540⟩ :=
  ⟨in_hours_expiration refA schedA ⟨Weekday.monday, 540, 1020, none, none⟩
      (by decide) (by decide)
      (fun bs be h1 _ => Option.noConfusion h1),
   by decide⟩

/-! ## Claim C4: rollover expiration rule -/

/-- Claim C4 (confirmed): when the reference instant is outside the day's
working hours (no record for its weekday, before-hours, or after-hours), and
`k ≤ 6` is the first day offset whose stored record's start time — combined
with the reference date advanced by `k` days and localized to the reference
timezone — is strictly later than the reference instant, then the computed
expiration is exactly that start instant plus 15 minutes. -/
theorem rollover_expiration (rd : Datetime) (s : List WorkingHour)
    (k : Nat) (w : WorkingHour)
    (h_out : ∀ w0, working_hour_for_day s (weekday_mapping rd.weekday) = some w0 →
      is_within_working_hours rd.time w0 = false)
    (hk : k < 7)
    (hw : working_hour_for_day s (weekday_mapping ((rd.weekday + k) % 7)) = some w)
    (h_later : rd.instant <
      (make_aware (Datetime.combine (rd.date + k) w.start_time) rd.tzinfo).instant)
    (h_first : ∀ j, j < k →
      working_hour_for_day s (weekday_mapping ((rd.weekday + j) % 7)) = none ∨
      ∃ wj, working_hour_for_day s (weekday_mapping ((rd.weekday + j) % 7)) = some wj ∧
        ¬ rd.instant <
          (make_aware (Datetime.combine (rd.date + j) wj.start_time) rd.tzinfo).instant) :
    set_request_expiration_datetime rd s =
      some ((make_aware (Datetime.combine (rd.date + k) w.start_time)
        rd.tzinfo).add_minutes 15) := by
  have hdeleg : set_request_expiration_datetime rd s =
      find_next_working_period_start rd s := by
    unfold set_request_expiration_datetime
    cases hwt : working_hour_for_day s (weekday_mapping rd.weekday) with
    | none => simp
    | some w0 => simp [h_out w0 hwt]
  rw [hdeleg]
  unfold find_next_working_period_start
  apply findSome?_range_first _ 7 k
  · intro j hj
    rcases h_first j hj with hnone | ⟨wj, hwj, hnl⟩
    · simp only [find_next_candidate, hnone]
    · simp only [find_next_candidate, hwj]
      simp [hnl]
  · simp only [find_next_candidate, hw]
    simp [h_later]
  · exact hk

/-- Scenario C schedule: Monday and Wednesday, both 09:00–17:00, no break. -/
def schedC : List WorkingHour :=
  [⟨Weekday.monday, 540, 1020, none, none⟩,
   ⟨Weekday.wednesday, 540, 1020, none, none⟩]

/-- Scenario C reference: a Monday, 18:00 (after hours), at UTC+09:00. -/
def refC : Datetime := ⟨0, 1080, some 540⟩

/-- Scenario C instantiation of the rollover rule: reference Monday 18:00
with the next availability on Wednesday 09:00 expires at Wednesday 09:15 in
the reference zone. -/
theorem rollover_expiration_witness :
    set_request_expiration_datetime refC schedC =
      some ((make_aware (Datetime.combine (refC.date + 2) 540)
        refC.tzinfo).add_minutes 15) ∧
    (make_aware (Datetime.combine (refC.date + 2) 540) refC.tzinfo).add_minutes 15 =
      ⟨2, 555, some 540⟩ :=
  ⟨rollover_expiration refC schedC 2 ⟨Weekday.wednesday, 540, 1020, none, none⟩
      (by
        intro w0 hw0
        have hl : working_hour_for_day schedC (weekday_mapping refC.weekday) =
            some ⟨Weekday.monday, 540, 1020, none, none⟩ := by decide
        rw [hl] at hw0
        cases hw0
        decide)
      (by decide) (by decide) (by decide)
      (by
        intro j hj
        interval_cases j
        · exact Or.inr ⟨⟨Weekday.monday, 540, 1020, none, none⟩, by decide, by decide⟩
        · exact Or.inl (by decide)),
   by decide⟩

/-! ## Claim C5: absent iff no availability at all -/

/-- A schedule with exactly one record, on Monday 09:00–17:00. -/
def schedOnlyMonday : List WorkingHour := [⟨Weekday.monday, 540, 1020, none, none⟩]

/-- A Monday, 18:00, at UTC+09:00 — after the only record's hours. -/
def refMondayEvening : Datetime := ⟨0, 1080, some 540⟩

/-- Claim C5 (refuted by the code): the provider has a Monday record — so a
next working-period start (the following Monday 09:00) exists and is later
than the reference — yet for a reference of Monday 18:00 the scan over day
offsets 0..6 (which never reaches the same weekday one week ahead) accepts
no candidate and `find_next_working_period_start` returns `none`. -/
theorem next_window_absent_despite_availability :
    schedOnlyMonday ≠ [] ∧
    find_next_working_period_start refMondayEvening schedOnlyMonday = none := by
  exact ⟨by decide, by decide⟩

/-! ## Claim C6: forward progress -/

/-- Claim C6 (confirmed): whenever `find_next_working_period_start` returns
an instant, that instant is strictly later than the reference instant. -/
theorem find_next_forward_progress (rd : Datetime) (s : List WorkingHour)
    (t : Datetime) (h : find_next_working_period_start rd s = some t) :
    rd.instant < t.instant := by
  unfold find_next_working_period_start at h
  rcases List.exists_of_findSome?_eq_some h with ⟨k, hk, hcand⟩
  simp only [find_next_candidate] at hcand
  rcases hwk : working_hour_for_day s (weekday_mapping ((rd.weekday + k) % 7)) with _ | w
  · rw [hwk] at hcand
    exact Option.noConfusion hcand
  · simp only [hwk] at hcand
    split at hcand
    · rename_i hlt
      injection hcand with ht
      rw [← ht, Datetime.instant_add_minutes]
      omega
    · exact Option.noConfusion hcand

/-- Schedule with a single Wednesday record, for the forward-progress
instantiation. -/
def schedP : List WorkingHour := [⟨Weekday.wednesday, 540, 1020, none, none⟩]

/-- A Monday, 18:00, at UTC+09:00. -/
def refP : Datetime := ⟨0, 1080, some 540⟩

/-- Wednesday 09:15 at UTC+09:00, the instant the search returns. -/
def nextP : Datetime := ⟨2, 555, some 540⟩

/-- Forward progress instantiated: from Monday 18:00 the search returns
Wednesday 09:15, which is strictly later. -/
theorem find_next_forward_progress_witness :
    find_next_working_period_start refP schedP = some nextP ∧
    refP.instant < nextP.instant :=
  ⟨by decide, find_next_forward_progress refP schedP nextP (by decide)⟩

/-! ## Claim C7: week-wide absence is rejected at creation -/

/-- Claim C7 (confirmed): when the provider has no working-hour records at
all, the expiration computation returns `none`, and the creation service
rejects the request with the no-availability error — it never reaches the
persistence step, so no request carrying an absent expiration is saved. -/
theorem no_availability_create_rejected (patient_id doctor_id : Nat)
    (preferred_datetime request_datetime : Datetime) :
    set_request_expiration_datetime request_datetime [] = none ∧
    create_appointment_request_service patient_id doctor_id preferred_datetime
      request_datetime [] = .error "Doctor is not available at that day" :=
  ⟨rfl, rfl⟩

/-! ## Claim C8: creation rejection conditions -/

/-- Claim C8 (confirmed): creation fails exactly when the preferred
datetime's weekday has no record, when the preferred time is strictly
outside the inclusive working-hour interval, or when a break pair exists and
the preferred time lies in the inclusive break interval; otherwise it
persists the request with the expiration computed by
`set_request_expiration_datetime`. -/
theorem create_rejection_conditions (patient_id doctor_id : Nat)
    (pref rd : Datetime) (s : List WorkingHour) :
    (working_hour_for_day s (weekday_mapping pref.weekday) = none →
      create_appointment_request_service patient_id doctor_id pref rd s =
        .error "Doctor is not available at that day") ∧
    (∀ w, working_hour_for_day s (weekday_mapping pref.weekday) = some w →
      ¬(w.start_time ≤ pref.time ∧ pref.time ≤ w.end_time) →
      create_appointment_request_service patient_id doctor_id pref rd s =
        .error "It's not operation hours. Can't make appointment for this time") ∧
    (∀ w bs be, working_hour_for_day s (weekday_mapping pref.weekday) = some w →
      w.start_time ≤ pref.time → pref.time ≤ w.end_time →
      w.break_start_time = some bs → w.break_end_time = some be →
      bs ≤ pref.time → pref.time ≤ be →
      create_appointment_request_service patient_id doctor_id pref rd s =
        .error "Doctor is having lunch break, can't make appointment for this time") ∧
    (∀ w, working_hour_for_day s (weekday_mapping pref.weekday) = some w →
      w.start_time ≤ pref.time → pref.time ≤ w.end_time →
      (∀ bs be, w.break_start_time = some bs → w.break_end_time = some be →
        ¬(bs ≤ pref.time ∧ pref.time ≤ be)) →
      create_appointment_request_service patient_id doctor_id pref rd s =
        .created { patient_id := patient_id, doctor_id := doctor_id,
                   preferred_datetime := pref,
                   request_expiration_datetime :=
                     set_request_expiration_datetime rd s,
                   status := "pending" }) := by
  refine ⟨?_, ?_, ?_, ?_⟩
  · intro hw
    simp only [create_appointment_request_service, hw]
  · intro w hw hout
    have hcond : (pref.time < w.start_time || w.end_time < pref.time) = true := by
      simp only [Bool.or_eq_true, decide_eq_true_eq]
      omega
    simp [create_appointment_request_service, hw, hcond]
  · intro w bs be hw h1 h2 hbs hbe h3 h4
    have hcond : (pref.time < w.start_time || w.end_time < pref.time) = false := by
      simp only [Bool.or_eq_false_iff, decide_eq_false_iff_not]
      omega
    have hbrk : (bs ≤ pref.time && pref.time ≤ be) = true := by
      simp only [Bool.and_eq_true, decide_eq_true_eq]
      omega
    simp [create_appointment_request_service, hw, hcond, hbs, hbe, hbrk]
  · intro w hw h1 h2 hnb
    have hcond : (pref.time < w.start_time || w.end_time < pref.time) = false := by
      simp only [Bool.or_eq_false_iff, decide_eq_false_iff_not]
      omega
    rcases hbs : w.break_start_time with _ | bs
    · simp [create_appointment_request_service, hw, hcond, hbs]
    · rcases hbe : w.break_end_time with _ | be
      · simp [create_appointment_request_service, hw, hcond, hbs, hbe]
      · have hbrk : (bs ≤ pref.time && pref.time ≤ be) = false := by
          have hn := hnb bs be hbs hbe
          simp only [Bool.and_eq_false_iff, decide_eq_false_iff_not]
          omega
        simp [create_appointment_request_service, hw, hcond, hbs, hbe, hbrk]

/-- Schedule for the creation-rejection instantiations: Monday 09:00–17:00
with a 12:00–13:00 break. -/
def schedMon : List WorkingHour := [⟨Weekday.monday, 540, 1020, some 720, some 780⟩]

/-- A Tuesday, 10:00, at UTC+09:00 (no record that weekday). -/
def prefNoDay : Datetime := ⟨1, 600, some 540⟩

/-- A Monday, 08:00, at UTC+09:00 (before hours). -/
def prefEarly : Datetime := ⟨0, 480, some 540⟩

/-- A Monday, 12:30, at UTC+09:00 (inside the break). -/
def prefBreak : Datetime := ⟨0, 750, some 540⟩

/-- A Monday, 10:00, at UTC+09:00 (acceptable). -/
def prefOk : Datetime := ⟨0, 600, some 540⟩

/-- A Monday, 10:00, at UTC+09:00, as the request-creation instant. -/
def rdMon : Datetime := ⟨0, 600, some 540⟩

/-- The four creation cases instantiated: no record that weekday, out of
hours, during the break, and an accepted creation persisting the computed
expiration. -/
theorem create_rejection_conditions_witness :
    create_appointment_request_service 1 2 prefNoDay rdMon schedMon =
      .error "Doctor is not available at that day" ∧
    create_appointment_request_service 1 2 prefEarly rdMon schedMon =
      .error "It's not operation hours. Can't make appointment for this time" ∧
    create_appointment_request_service 1 2 prefBreak rdMon schedMon =
      .error "Doctor is having lunch break, can't make appointment for this time" ∧
    create_appointment_request_service 1 2 prefOk rdMon schedMon =
      .created { patient_id := 1, doctor_id := 2,
                 preferred_datetime := prefOk,
                 request_expiration_datetime :=
                   set_request_expiration_datetime rdMon schedMon,
                 status := "pending" } :=
  ⟨(create_rejection_conditions 1 2 prefNoDay rdMon schedMon).1 (by decide),
   (create_rejection_conditions 1 2 prefEarly rdMon schedMon).2.1
      ⟨Weekday.monday, 540, 1020, some 720, some 780⟩ (by decide) (by decide),
   (create_rejection_conditions 1 2 prefBreak rdMon schedMon).2.2.1
      ⟨Weekday.monday, 540, 1020, some 720, some 780⟩ 720 780 (by decide) (by decide)
      (by decide) rfl rfl (by decide) (by decide),
   (create_rejection_conditions 1 2 prefOk rdMon schedMon).2.2.2
      ⟨Weekday.monday, 540, 1020, some 720, some 780⟩ (by decide) (by decide) (by decide)
      (by
        intro bs be hb1 hb2
        injection hb1 with e1
        injection hb2 with e2
        have ht : prefOk.time = 600 := rfl
        omega)⟩

/-! ## Claim C9: acceptance state machine -/

/-- Claim C9 (confirmed): an acceptance attempt fails `Expired` when the
current instant is strictly after the stored expiration, fails
`AlreadyAccepted` when (not expired and) the status is already `accepted`,
fails `NotFound` when no request has the given id, otherwise transitions the
status to `accepted` and persists it; and a request whose status is
`accepted` is never modified in the store. -/
theorem acceptance_state_machine (requests : List (Nat × AppointmentRequest))
    (appointment_request_id : Nat) (now : Datetime) :
    (requests.find? (fun p => p.1 == appointment_request_id) = none →
      update_appointment_request_status requests appointment_request_id "accepted" now =
        (.error "Appointment request not found", requests)) ∧
    (∀ rid r exp,
      requests.find? (fun p => p.1 == appointment_request_id) = some (rid, r) →
      r.request_expiration_datetime = some exp →
      exp.tzinfo.isSome = now.tzinfo.isSome →
      exp.instant < now.instant →
      update_appointment_request_status requests appointment_request_id "accepted" now =
        (.error "Appointment request expired", requests)) ∧
    (∀ rid r exp,
      requests.find? (fun p => p.1 == appointment_request_id) = some (rid, r) →
      r.request_expiration_datetime = some exp →
      exp.tzinfo.isSome = now.tzinfo.isSome →
      ¬ exp.instant < now.instant →
      r.status = "accepted" →
      update_appointment_request_status requests appointment_request_id "accepted" now =
        (.error "Appointment request already accepted", requests)) ∧
    (∀ rid r exp,
      requests.find? (fun p => p.1 == appointment_request_id) = some (rid, r) →
      r.request_expiration_datetime = some exp →
      exp.tzinfo.isSome = now.tzinfo.isSome →
      ¬ exp.instant < now.instant →
      r.status ≠ "accepted" →
      update_appointment_request_status requests appointment_request_id "accepted" now =
        (.ok { r with status := "accepted" },
          requests.map (fun p =>
            if p.1 == appointment_request_id
            then (p.1, { r with status := "accepted" }) else p))) ∧
    (∀ rid r,
      requests.find? (fun p => p.1 == appointment_request_id) = some (rid, r) →
      r.status = "accepted" →
      (update_appointment_request_status requests appointment_request_id
        "accepted" now).2 = requests) := by
  refine ⟨?_, ?_, ?_, ?_, ?_⟩
  · intro hfind
    simp only [update_appointment_request_status, hfind]
  · intro rid r exp hfind hexp htz hlt
    have hbne : (exp.tzinfo.isSome != now.tzinfo.isSome) = false := by
      simp [htz]
    simp [update_appointment_request_status, hfind, hexp, hbne, hlt]
  · intro rid r exp hfind hexp htz hlt hst
    have hbne : (exp.tzinfo.isSome != now.tzinfo.isSome) = false := by
      simp [htz]
    simp [update_appointment_request_status, hfind, hexp, hbne, hlt, hst]
  · intro rid r exp hfind hexp htz hlt hst
    have hbne : (exp.tzinfo.isSome != now.tzinfo.isSome) = false := by
      simp [htz]
    simp [update_appointment_request_status, hfind, hexp, hbne, hlt, hst]
  · intro rid r hfind hst
    cases hexp : r.request_expiration_datetime with
    | none =>
      simp [update_appointment_request_status, hfind, hexp]
    | some exp =>
      by_cases htz : (exp.tzinfo.isSome != now.tzinfo.isSome) = true
      · simp [update_appointment_request_status, hfind, hexp, htz]
      · have hbne : (exp.tzinfo.isSome != now.tzinfo.isSome) = false := by
          simpa using htz
        by_cases hlt : exp.instant < now.instant
        · simp [update_appointment_request_status, hfind, hexp, hbne, hlt]
        · simp [update_appointment_request_status, hfind, hexp, hbne, hlt, hst]

/-- A pending request expiring at Monday 10:20 (UTC+09:00). -/
def reqPend : AppointmentRequest :=
  { patient_id := 1, doctor_id := 2, preferred_datetime := ⟨0, 600, some 540⟩,
    request_expiration_datetime := some ⟨0, 620, some 540⟩, status := "pending" }

/-- The same request already accepted. -/
def reqAcc : AppointmentRequest := { reqPend with status := "accepted" }

/-- A store holding the pending request under id 1. -/
def storePend : List (Nat × AppointmentRequest) := [(1, reqPend)]

/-- A store holding the accepted request under id 1. -/
def storeAcc : List (Nat × AppointmentRequest) := [(1, reqAcc)]

/-- Monday 10:10 (UTC+09:00), before the stored expiration. -/
def nowEarly : Datetime := ⟨0, 610, some 540⟩

/-- Monday 11:40 (UTC+09:00), after the stored expiration. -/
def nowLate : Datetime := ⟨0, 700, some 540⟩

/-- The acceptance state machine instantiated: unknown id, expired attempt,
repeated acceptance, successful acceptance, and an accepted request left
unmodified. -/
theorem acceptance_state_machine_witness :
    update_appointment_request_status storePend 2 "accepted" nowEarly =
      (.error "Appointment request not found", storePend) ∧
    update_appointment_request_status storePend 1 "accepted" nowLate =
      (.error "Appointment request expired", storePend) ∧
    update_appointment_request_status storeAcc 1 "accepted" nowEarly =
      (.error "Appointment request already accepted", storeAcc) ∧
    update_appointment_request_status storePend 1 "accepted" nowEarly =
      (.ok { reqPend with status := "accepted" },
        storePend.map (fun p =>
          if p.1 == 1 then (p.1, { reqPend with status := "accepted" }) else p)) ∧
    (update_appointment_request_status storeAcc 1 "accepted" nowLate).2 = storeAcc :=
  ⟨(acceptance_state_machine storePend 2 nowEarly).1 (by decide),
   (acceptance_state_machine storePend 1 nowLate).2.1 1 reqPend ⟨0, 620, some 540⟩
      (by decide) rfl rfl (by decide),
   (acceptance_state_machine storeAcc 1 nowEarly).2.2.1 1 reqAcc ⟨0, 620, some 540⟩
      (by decide) rfl rfl (by decide) rfl,
   (acceptance_state_machine storePend 1 nowEarly).2.2.2.1 1 reqPend ⟨0, 620, some 540⟩
      (by decide) rfl rfl (by decide) (by decide),
   (acceptance_state_machine storeAcc 1 nowLate).2.2.2.2 1 reqAcc (by decide) rfl⟩

/-! ## Claim C10: the expiration check runs before the accepted check -/

/-- Claim C10 (confirmed): for a request whose status is already `accepted`,
an acceptance attempt strictly after the stored expiration returns the
`Expired` error, not `AlreadyAccepted`; and the `AlreadyAccepted` error is
only observable when the current instant is at or before the stored
expiration. -/
theorem expired_check_precedes_already_accepted
    (requests : List (Nat × AppointmentRequest))
    (appointment_request_id : Nat) (now : Datetime) :
    (∀ rid r exp,
      requests.find? (fun p => p.1 == appointment_request_id) = some (rid, r) →
      r.status = "accepted" →
      r.request_expiration_datetime = some exp →
      exp.tzinfo.isSome = now.tzinfo.isSome →
      exp.instant < now.instant →
      (update_appointment_request_status requests appointment_request_id
        "accepted" now).1 = .error "Appointment request expired") ∧
    (∀ new_status,
      (update_appointment_request_status requests appointment_request_id
        new_status now).1 = .error "Appointment request already accepted" →
      ∃ rid r exp,
        requests.find? (fun p => p.1 == appointment_request_id) = some (rid, r) ∧
        r.request_expiration_datetime = some exp ∧
        ¬ exp.instant < now.instant) := by
  constructor
  · intro rid r exp hfind hst hexp htz hlt
    have hbne : (exp.tzinfo.isSome != now.tzinfo.isSome) = false := by
      simp [htz]
    simp [update_appointment_request_status, hfind, hexp, hbne, hlt]
  · intro new_status h
    rcases hfind : requests.find? (fun p => p.1 == appointment_request_id)
      with _ | ⟨rid, r⟩
    · simp [update_appointment_request_status, hfind] at h
    · rcases hexp : r.request_expiration_datetime with _ | exp
      · simp [update_appointment_request_status, hfind, hexp] at h
      · by_cases htz : (exp.tzinfo.isSome != now.tzinfo.isSome) = true
        · simp [update_appointment_request_status, hfind, hexp, htz] at h
        · have hbne : (exp.tzinfo.isSome != now.tzinfo.isSome) = false := by
            simpa using htz
          by_cases hlt : exp.instant < now.instant
          · simp [update_appointment_request_status, hfind, hexp, hbne, hlt] at h
          · exact ⟨rid, r, exp, hfind, hexp, hlt⟩

/-- An already-accepted request expiring at Monday 10:20 (UTC+09:00), stored
under id 7. -/
def reqAccX : AppointmentRequest :=
  { patient_id := 3, doctor_id := 4, preferred_datetime := ⟨0, 600, some 540⟩,
    request_expiration_datetime := some ⟨0, 620, some 540⟩, status := "accepted" }

/-- A store holding only `reqAccX`. -/
def storeX : List (Nat × AppointmentRequest) := [(7, reqAccX)]

/-- Monday 11:40 (UTC+09:00), after `reqAccX`'s expiration. -/
def nowX : Datetime := ⟨0, 700, some 540⟩

/-- Precedence instantiated: accepting an already-accepted, expired request
reports `Expired`, not `AlreadyAccepted`. -/
theorem expired_check_precedes_already_accepted_witness :
    (update_appointment_request_status storeX 7 "accepted" nowX).1 =
      .error "Appointment request expired" :=
  (expired_check_precedes_already_accepted storeX 7 nowX).1 7 reqAccX
    ⟨0, 620, some 540⟩ (by decide) rfl rfl rfl (by decide)
